import Mathlib

/-!
Shallow embedding of the progressive-revision tutoring backend
(`backend/core/revision_agents.py`, `backend/core/mongodb_client.py`,
`backend/config.py`, `backend/models/schemas.py`).

Modelling conventions:
* Python in-place mutation of the session object is modelled by explicit
  state passing: every handler returns the (possibly mutated) session
  state paired with `Except Err RevResponse`, where `Except.error`
  models a raised Python exception.  Mutations made before a raise are
  visible in the returned state, matching Python object mutation.
* Attributes that are added to the session object dynamically
  (`concept_chunks`, `current_chunk_index`, `revision_mode`, ...) are
  `Option` fields; `none` models "attribute absent" (`hasattr` false).
* Python dictionary responses with varying key sets are modelled by the
  `RevResponse` structure; keys absent from a given dictionary are the
  field defaults.
* Wall-clock timestamps (`started_at`, `last_interaction`,
  `duration_minutes`) are external I/O and are not modelled; no claim
  mentions them.
* Collaborators (the LLM, the MongoDB store) are opaque functions
  gathered in an `Env` record.  Prompt templates
  (`backend/prompts/revision_prompts.py`) are pure format strings with
  no control logic; a prompt is modelled as an injective constructor
  carrying exactly the arguments the template is formatted with.
* Durable writes (`save_revision_session`, `save_conversation_turn`,
  `update_session_progress`) return no value that the core ever reads;
  the spec declares write failures logged-and-swallowed, so the writes
  are omitted from the state-transition model.
-/

/-- Python exception, carried as its message. -/
abbrev Err := String

/-- Auxiliary: does `needle` occur as a contiguous sublist of `hay`? -/
def charsInfixOf (needle : List Char) : List Char → Bool
  | [] => needle.isEmpty
  | c :: rest => needle.isPrefixOf (c :: rest) || charsInfixOf needle rest

/-- Python's substring test `needle in hay` for strings. -/
def strContains (hay needle : String) : Bool :=
  charsInfixOf needle.data hay.data

/-- Python `str.lower()` (ASCII case folding, as in the source's use). -/
def strToLower (s : String) : String := String.mk (s.data.map Char.toLower)

/-- Python `str.strip()`: whitespace removed from both ends. -/
def strTrim (s : String) : String :=
  String.mk (((s.data.dropWhile Char.isWhitespace).reverse.dropWhile Char.isWhitespace).reverse)

/-- Python `s[:n]`, by characters. -/
def strTake (s : String) (n : Nat) : String := String.mk (s.data.take n)

/-- Python `len(s)`, by characters. -/
def strLen (s : String) : Nat := s.data.length

/-- Auxiliary for `pyWords`: accumulate the current word in reverse. -/
def wordsAux (acc : List Char) : List Char → List String
  | [] => if acc.isEmpty then [] else [String.mk acc.reverse]
  | c :: rest =>
    if c.isWhitespace then
      if acc.isEmpty then wordsAux [] rest
      else String.mk acc.reverse :: wordsAux [] rest
    else wordsAux (c :: acc) rest

/-- Python `str.split()` with no argument: the maximal runs of
non-whitespace characters, no empty words. -/
def pyWords (s : String) : List String := wordsAux [] s.data

/-- Python `sep.join(parts)`. -/
def strJoin (sep : String) : List String → String
  | [] => ""
  | [x] => x
  | x :: y :: rest => x ++ sep ++ strJoin sep (y :: rest)

/-- Python's `x or default` idiom on an optional integer field:
`None` and `0` are falsy and give the default. -/
def pyOrNat (x : Option Nat) (d : Nat) : Nat :=
  match x with
  | some n => if n = 0 then d else n
  | none => d

/-- A content chunk as returned by the MongoDB store: document with
`text`, `chunk_id`, `topic` keys.  `chunk_id` is optional because the
agent reads it with `chunk.get("chunk_id", "Unknown")`. -/
structure Chunk where
  text : String
  chunk_id : Option String
deriving Repr, DecidableEq

/-- A persisted session snapshot as read back by
`_restore_session_state`; optional fields model `.get(key, default)`
reads of possibly missing document keys. -/
structure StoredSession where
  session_id : String
  topic : String
  student_id : String
  conversation_count : Option Nat
  is_complete : Option Bool
  concepts_covered : Option (List String)
  max_conversations : Option Nat
  completion_threshold : Option Nat
  current_chunk_index : Option Nat
deriving Repr, DecidableEq

/-- `SessionState` (`backend/models/schemas.py`) together with the
attributes the agent injects dynamically after construction. -/
structure SessionState where
  session_id : String
  topic : String
  student_id : String
  conversation_count : Nat
  is_complete : Bool
  key_concepts_covered : List String
  user_understanding_level : String
  max_conversations : Option Nat
  completion_threshold : Option Nat
  concept_chunks : Option (List Chunk)
  current_chunk_index : Option Nat
  revision_mode : Option String
  quiz_in_progress : Bool
  quiz_concepts : List String
  expecting_answer : Bool
  current_question_concept : Option String
deriving Repr, DecidableEq

/-- The statistics dictionary built by `_complete_session`
(`duration_minutes` is wall-clock time, not modelled). -/
structure SessionStats where
  total_interactions : Nat
  concepts_covered : Nat
  completion_rate : ℚ
deriving Repr, DecidableEq

/-- A response dictionary returned by a stage handler or by the
lifecycle manager; keys absent from a particular Python dict are the
field defaults here. -/
structure RevResponse where
  response : String
  is_session_complete : Bool
  topic : Option String := none
  session_id : Option String := none
  conversation_count : Option Nat := none
  session_summary : Option String := none
  next_suggested_action : Option String := none
  sources : List String := []
  current_stage : Option String := none
  max_conversations : Option Nat := none
  completion_threshold : Option Nat := none
  progress_percentage : Option ℚ := none
  session_stats : Option SessionStats := none
deriving Repr, DecidableEq

/-- A prompt sent to the text generator.  Each constructor stands for
one template of `RevisionPrompts` (or the inline feedback template),
applied to exactly the arguments the source formats it with. -/
inductive Prompt where
  | topicKickoff (topic contentText : String)
  | progressiveRecap (topic chunkText : String) (chunkNum totalChunks : Nat)
  | engagingQuestion (topic concept difficulty : String)
  | miniQuiz (topic : String) (concepts : List String) (numQuestions : Nat)
  | questionHandling (userQuery : Option String) (topic context : String)
  | progressTracking (topic : String) (conceptsCompleted totalConcepts : Nat) (percentage : ℚ)
  | quizFeedback (topic : String) (userAnswer : Option String) (quizConcepts : List String)
  | conclusion (topic : String) (concepts : List String) (stats : SessionStats)
deriving Repr, DecidableEq

/-- External collaborators of the agent.
`generate` is the LLM (`GeminiLLMWrapper.generate_response`), fallible.
`textSearch`/`regexSearch` are the two raw store queries inside
`MongoDBClient.search_topic_content`'s `try` block, fallible.
`get_topic_content` is `MongoDBClient.get_topic_content` after its own
fail-open `except` (total).
`get_topic_content_chunks` and `get_revision_session` are MongoDB
client methods called by the agent but not present under `src/`;
modelled from the spec as an opaque total chunk fetch (`getAllChunks`,
fail-open per the spec) and an opaque snapshot lookup. -/
structure Env where
  generate : Prompt → Except Err String
  textSearch : String → Option String → Nat → Except Err (List Chunk)
  regexSearch : String → Option String → Nat → Except Err (List Chunk)
  get_topic_content : String → Nat → List Chunk
  get_topic_content_chunks : String → List Chunk
  get_revision_session : String → Option StoredSession

/-- Per-topic tunables (`backend/config.py`). -/
structure TopicConfig where
  max_conversations : Nat
  completion_threshold : Nat
deriving Repr, DecidableEq

namespace Config

def DEFAULT_MAX_CONVERSATIONS : Nat := 25
def DEFAULT_COMPLETION_THRESHOLD : Nat := 15

def TOPIC_CONFIGURATIONS : List (String × TopicConfig) :=
  [("photosynthesis", ⟨30, 20⟩),
   ("respiration", ⟨25, 15⟩),
   ("cell_structure", ⟨35, 25⟩),
   ("nutrition", ⟨20, 12⟩)]

/-- `Config.get_topic_config`: exact lowercase/trimmed match, then
bidirectional substring match in table order, then defaults. -/
def get_topic_config (topic : String) : TopicConfig :=
  let topic_lower := strTrim (strToLower topic)
  match TOPIC_CONFIGURATIONS.find? (fun p => p.1 == topic_lower) with
  | some p => p.2
  | none =>
    match TOPIC_CONFIGURATIONS.find?
        (fun p => strContains topic_lower p.1 || strContains p.1 topic_lower) with
    | some p => p.2
    | none => ⟨DEFAULT_MAX_CONVERSATIONS, DEFAULT_COMPLETION_THRESHOLD⟩

def get_max_conversations (topic : String) : Nat :=
  (get_topic_config topic).max_conversations

def get_completion_threshold (topic : String) : Nat :=
  (get_topic_config topic).completion_threshold

end Config

/-- `flow_config["stage_patterns"]`: the ordered (stage, condition)
rule list. -/
def stage_patterns : List (String × String) :=
  [("kickoff_response", "conversation_count == 1"),
   ("user_question", "has_question_indicators"),
   ("mini_quiz", "conversation_count % 5 == 0 and conversation_count > 5"),
   ("engaging_question", "conversation_count % 3 == 0 and conversation_count > 2"),
   ("progress_check", "conversation_count % 8 == 0 and conversation_count > 8"),
   ("progressive_recap", "default")]

/-- `flow_config["question_indicators"]`. -/
def question_indicators : List String :=
  ["?", "what", "why", "how", "explain", "tell me", "help", "can you"]

/-- `flow_config["session_end_phrases"]`. -/
def session_end_phrases : List String :=
  ["end session", "finish", "complete", "done", "exit", "summary"]

/-- `_has_question_indicators`: falsy query (absent or empty) is no;
otherwise any indicator occurring as a substring of the lowercased
query. -/
def has_question_indicators (user_query : Option String) : Bool :=
  match user_query with
  | none => false
  | some u =>
    if u = "" then false
    else question_indicators.any (fun ind => strContains (strToLower u) ind)

/-- `_should_end_session`. -/
def should_end_session (user_query : Option String) : Bool :=
  match user_query with
  | none => false
  | some u =>
    if u = "" then false
    else session_end_phrases.any (fun phrase => strContains (strToLower u) phrase)

/-- `_evaluate_stage_condition`: string-keyed condition dispatch. -/
def evaluate_stage_condition (condition : String) (s : SessionState)
    (user_query : Option String) : Bool :=
  let c := s.conversation_count
  if condition = "conversation_count == 1" then c == 1
  else if condition = "has_question_indicators" then has_question_indicators user_query
  else if condition = "conversation_count % 5 == 0 and conversation_count > 5" then
    c % 5 == 0 && c > 5
  else if condition = "conversation_count % 3 == 0 and conversation_count > 2" then
    c % 3 == 0 && c > 2
  else if condition = "conversation_count % 8 == 0 and conversation_count > 8" then
    c % 8 == 0 && c > 8
  else if condition = "default" then true
  else false

/-- `_determine_stage_from_config`: first pattern whose condition holds
wins; `general` if none match. -/
def determine_stage_from_config (s : SessionState) (user_query : Option String) : String :=
  match stage_patterns.find? (fun p => evaluate_stage_condition p.2 s user_query) with
  | some p => p.1
  | none => "general"

/-- `_extract_concept_name`: first three whitespace words, else the
text truncated to 50 characters with an ellipsis. -/
def extract_concept_name (text : String) : String :=
  let words := pyWords text
  if words.length ≥ 3 then strJoin " " (words.take 3)
  else if strLen text > 50 then strTake text 50 ++ "..." else text

/-- `MongoDBClient.search_topic_content`: ranked text search, regex
fallback when the ranked search comes back empty, and a fail-open
`except` returning `[]` around the whole attempt. -/
def search_topic_content (env : Env) (topic : String) (query : Option String)
    (limit : Nat) : List Chunk :=
  match env.textSearch topic query limit with
  | Except.error _ => []
  | Except.ok results =>
    if results.isEmpty then
      match env.regexSearch topic query limit with
      | Except.error _ => []
      | Except.ok fallback_results => fallback_results
    else results

/-- `_complete_session`: marks the session complete (an in-place
mutation performed before the fallible conclusion generation), builds
the statistics, generates a conclusion and returns the terminal
response.  Python truthiness of `completion_threshold` makes both
`None` and `0` fall back to a completion rate of 100. -/
def complete_session (env : Env) (s : SessionState) :
    SessionState × Except Err RevResponse :=
  let s := { s with is_complete := true }
  let completion_rate : ℚ :=
    match s.completion_threshold with
    | some t =>
      if t = 0 then 100
      else min 100 ((s.conversation_count : ℚ) / (t : ℚ) * 100)
    | none => 100
  let stats : SessionStats :=
    { total_interactions := s.conversation_count,
      concepts_covered := s.key_concepts_covered.length,
      completion_rate := completion_rate }
  match env.generate (Prompt.conclusion s.topic s.key_concepts_covered stats) with
  | Except.error e => (s, Except.error e)
  | Except.ok summary =>
    (s, Except.ok
      { response := summary,
        topic := some s.topic,
        session_id := some s.session_id,
        conversation_count := some s.conversation_count,
        is_session_complete := true,
        session_summary := some summary,
        next_suggested_action := some
          ("Great work! You can explore related topics or review " ++ s.topic ++ " again anytime!"),
        sources := [],
        session_stats := some stats })

/-- `_handle_progress_check`: counts progress, computes a percentage
(raising `TypeError`/`ZeroDivisionError` exactly where Python would),
generates a progress narrative, then either completes the session or
returns the narrative. -/
def handle_progress_check (env : Env) (s : SessionState)
    (_user_query : Option String) : SessionState × Except Err RevResponse :=
  let total_concepts : Nat :=
    match s.concept_chunks with
    | some chunks => chunks.length
    | none => s.key_concepts_covered.length
  let concepts_completed : Nat := s.key_concepts_covered.length
  let percentageE : Except Err ℚ :=
    if total_concepts > 0 then
      Except.ok ((concepts_completed : ℚ) / (total_concepts : ℚ) * 100)
    else
      match s.completion_threshold with
      | none => Except.error "TypeError: unsupported operand types for division"
      | some t =>
        if t = 0 then Except.error "ZeroDivisionError: division by zero"
        else Except.ok ((s.conversation_count : ℚ) / (t : ℚ) * 100)
  match percentageE with
  | Except.error e => (s, Except.error e)
  | Except.ok percentage =>
    match env.generate
        (Prompt.progressTracking s.topic concepts_completed total_concepts percentage) with
    | Except.error e => (s, Except.error e)
    | Except.ok response =>
      let completion_threshold :=
        pyOrNat s.completion_threshold (Config.get_completion_threshold s.topic)
      if percentage ≥ 90 ∨ concepts_completed ≥ total_concepts ∨
          s.conversation_count ≥ completion_threshold then
        complete_session env s
      else
        (s, Except.ok
          { response := response,
            current_stage := some "progress_check",
            is_session_complete := false,
            sources := [],
            progress_percentage := some percentage })

/-- `_handle_progressive_recap`: seeds the cursor if absent, advances
it, emits the chunk it now points at when still in range (safe indexing
guaranteed by the bound), otherwise delegates to the progress check. -/
def handle_progressive_recap (env : Env) (s : SessionState)
    (_user_query : Option String) : SessionState × Except Err RevResponse :=
  let idx := s.current_chunk_index.getD 0 + 1
  let s := { s with current_chunk_index := some idx }
  match s.concept_chunks with
  | some chunks =>
    if h : idx < chunks.length then
      let current_chunk := chunks.get ⟨idx, h⟩
      let total_chunks := chunks.length
      match env.generate
          (Prompt.progressiveRecap s.topic current_chunk.text (idx + 1) total_chunks) with
      | Except.error e => (s, Except.error e)
      | Except.ok response =>
        let concept_name := extract_concept_name current_chunk.text
        let s :=
          if concept_name ∈ s.key_concepts_covered then s
          else { s with key_concepts_covered := s.key_concepts_covered ++ [concept_name] }
        (s, Except.ok
          { response := response,
            current_stage := some "progressive_recap",
            is_session_complete := false,
            sources := [current_chunk.chunk_id.getD "Unknown"] })
    else handle_progress_check env s none
  | none => handle_progress_check env s none

/-- Tail of `_handle_kickoff_response` shared by both `hasattr`
branches: `session_state.concept_chunks` (already equal to `chunks` on
the session) is truthiness-tested; a non-empty list delivers its first
chunk and records its concept WITHOUT deduplicating, an empty one
returns the trouble-loading fallback. -/
def kickoff_deliver (env : Env) (s : SessionState) (chunks : List Chunk) :
    SessionState × Except Err RevResponse :=
  match chunks with
  | first_chunk :: rest =>
    match env.generate
        (Prompt.progressiveRecap s.topic first_chunk.text 1 (first_chunk :: rest).length) with
    | Except.error e => (s, Except.error e)
    | Except.ok response =>
      let concept_name := extract_concept_name first_chunk.text
      let s := { s with key_concepts_covered := s.key_concepts_covered ++ [concept_name] }
      (s, Except.ok
        { response := response,
          current_stage := some "progressive_recap",
          is_session_complete := false,
          sources := [first_chunk.chunk_id.getD "Unknown"] })
  | [] =>
    (s, Except.ok
      { response := "I'm having trouble loading the content for this topic. Let me help you with general questions instead!",
        current_stage := some "user_question",
        is_session_complete := false,
        sources := [] })

/-- `_handle_kickoff_response`: classifies quick-recap vs deep-dive
(raising Python's `AttributeError` when the query is `None`, since the
source calls `user_query.lower()` unconditionally), fills the chunk
list if absent, resets the cursor and delivers the first chunk via
`kickoff_deliver`. -/
def handle_kickoff_response (env : Env) (s : SessionState)
    (user_query : Option String) : SessionState × Except Err RevResponse :=
  match user_query with
  | none => (s, Except.error "AttributeError: NoneType object has no attribute lower")
  | some u =>
    let revision_mode_indicators := ["quick", "recap", "summary", "brief", "short"]
    let is_quick_recap := revision_mode_indicators.any (fun p => strContains (strToLower u) p)
    let s := { s with revision_mode := some (if is_quick_recap then "quick_recap" else "deep_dive") }
    match s.concept_chunks with
    | none =>
      let chunks := env.get_topic_content_chunks s.topic
      kickoff_deliver env
        { s with concept_chunks := some chunks, current_chunk_index := some 0 } chunks
    | some chunks =>
      kickoff_deliver env { s with current_chunk_index := some 0 } chunks

/-- `_handle_engaging_question`. -/
def handle_engaging_question (env : Env) (s : SessionState)
    (_user_query : Option String) : SessionState × Except Err RevResponse :=
  let last_concept := (s.key_concepts_covered.getLast?).getD s.topic
  let difficulty_levels := ["easy", "medium", "hard"]
  let difficulty_index := min (s.conversation_count / 6) 2
  let difficulty := difficulty_levels.getD difficulty_index "easy"
  match env.generate (Prompt.engagingQuestion s.topic last_concept difficulty) with
  | Except.error e => (s, Except.error e)
  | Except.ok response =>
    let s := { s with expecting_answer := true, current_question_concept := some last_concept }
    (s, Except.ok
      { response := response,
        current_stage := some "engaging_question",
        is_session_complete := false,
        sources := [] })

/-- `_evaluate_quiz_answers`: clears the in-progress flag (before the
fallible generation) and produces feedback text. -/
def evaluate_quiz_answers (env : Env) (s : SessionState)
    (user_answer : Option String) : SessionState × Except Err RevResponse :=
  let s := { s with quiz_in_progress := false }
  match env.generate (Prompt.quizFeedback s.topic user_answer s.quiz_concepts) with
  | Except.error e => (s, Except.error e)
  | Except.ok response =>
    (s, Except.ok
      { response := response,
        current_stage := some "quiz_feedback",
        is_session_complete := false,
        sources := [] })

/-- `_handle_mini_quiz`: routes to evaluation when a quiz is already in
progress, otherwise builds a quiz from the last up-to-3 covered
concepts (topic fallback) and flags it in progress. -/
def handle_mini_quiz (env : Env) (s : SessionState)
    (user_query : Option String) : SessionState × Except Err RevResponse :=
  if s.quiz_in_progress then evaluate_quiz_answers env s user_query
  else
    let concepts_for_quiz :=
      if s.key_concepts_covered.length ≥ 3 then
        s.key_concepts_covered.drop (s.key_concepts_covered.length - 3)
      else s.key_concepts_covered
    let concepts_for_quiz := if concepts_for_quiz.isEmpty then [s.topic] else concepts_for_quiz
    let num_questions := min 3 concepts_for_quiz.length
    match env.generate (Prompt.miniQuiz s.topic concepts_for_quiz num_questions) with
    | Except.error e => (s, Except.error e)
    | Except.ok response =>
      let s := { s with quiz_in_progress := true, quiz_concepts := concepts_for_quiz }
      (s, Except.ok
        { response := response,
          current_stage := some "mini_quiz",
          is_session_complete := false,
          sources := [] })

/-- `_handle_user_question`: searches the store (fail-open), builds the
context string and answers via the generator. -/
def handle_user_question (env : Env) (s : SessionState)
    (user_query : Option String) : SessionState × Except Err RevResponse :=
  let relevant_content := search_topic_content env s.topic user_query 3
  let context :=
    if relevant_content.isEmpty then ""
    else strJoin "\n" (relevant_content.map (fun c => c.text))
  match env.generate (Prompt.questionHandling user_query s.topic context) with
  | Except.error e => (s, Except.error e)
  | Except.ok response =>
    (s, Except.ok
      { response := response,
        current_stage := some "user_question",
        is_session_complete := false,
        sources := relevant_content.map (fun c => c.chunk_id.getD "Unknown") })

/-- `_handle_general_interaction`: falls back to progressive recap. -/
def handle_general_interaction (env : Env) (s : SessionState)
    (user_query : Option String) : SessionState × Except Err RevResponse :=
  handle_progressive_recap env s user_query

/-- `flow_config["stage_handlers"]` lookup; the `.get(...)` default is
the general handler. -/
def stage_handler (stage : String) :
    Env → SessionState → Option String → SessionState × Except Err RevResponse :=
  if stage = "kickoff_response" then handle_kickoff_response
  else if stage = "progressive_recap" then handle_progressive_recap
  else if stage = "engaging_question" then handle_engaging_question
  else if stage = "mini_quiz" then handle_mini_quiz
  else if stage = "user_question" then handle_user_question
  else if stage = "progress_check" then handle_progress_check
  else if stage = "quiz_feedback" then evaluate_quiz_answers
  else handle_general_interaction

/-- `_process_revision_flow`: classify, dispatch, and convert any
handler exception into the generic continuation response. -/
def process_revision_flow (env : Env) (s : SessionState)
    (user_query : Option String) : SessionState × RevResponse :=
  let current_stage := determine_stage_from_config s user_query
  match stage_handler current_stage env s user_query with
  | (s1, Except.ok r) => (s1, r)
  | (s1, Except.error _) =>
    (s1,
      { response := "I encountered an issue. Let me help you continue with your revision.",
        current_stage := some "general",
        is_session_complete := false,
        sources := [] })

/-- The in-memory `self.session_states` dictionary, as an association
list keyed by session id. -/
abbrev SessionCache := List (String × SessionState)

/-- Dictionary read `self.session_states.get(session_id)`. -/
def cacheLookup (cache : SessionCache) (session_id : String) : Option SessionState :=
  (cache.find? (fun p => p.1 == session_id)).map (fun p => p.2)

/-- Dictionary write `self.session_states[session_id] = s` (and the
effect of mutating the object stored under that key in place). -/
def cacheInsert (cache : SessionCache) (session_id : String) (s : SessionState) : SessionCache :=
  (session_id, s) :: cache.filter (fun p => p.1 != session_id)

/-- `_restore_session_state`: rebuild a session from a durable
snapshot, defaulting missing optional fields, then fetch the concept
chunks (the freshly constructed object never carries them). -/
def restore_session_state (env : Env) (data : StoredSession) : SessionState :=
  { session_id := data.session_id,
    topic := data.topic,
    student_id := data.student_id,
    conversation_count := data.conversation_count.getD 0,
    is_complete := data.is_complete.getD false,
    key_concepts_covered := data.concepts_covered.getD [],
    user_understanding_level := "beginner",
    max_conversations := data.max_conversations,
    completion_threshold := data.completion_threshold,
    current_chunk_index := some (data.current_chunk_index.getD 0),
    concept_chunks := some (env.get_topic_content_chunks data.topic),
    revision_mode := none,
    quiz_in_progress := false,
    quiz_concepts := [],
    expecting_answer := false,
    current_question_concept := none }

/-- `_get_or_restore_session`: cache hit, else durable restore (which
populates the cache), else not found. -/
def get_or_restore_session (env : Env) (cache : SessionCache) (session_id : String) :
    SessionCache × Option SessionState :=
  match cacheLookup cache session_id with
  | some s => (cache, some s)
  | none =>
    match env.get_revision_session session_id with
    | some data =>
      let s := restore_session_state env data
      (cacheInsert cache session_id s, some s)
    | none => (cache, none)

/-- `continue_revision`: resolve the session, increment the turn
counter, short-circuit to completion on a manual end phrase, otherwise
classify and dispatch (faults already converted by
`process_revision_flow`) and merge the session metadata into the
response.  The returned cache reflects every in-place mutation, also
when completion's generation fails and the exception escapes. -/
def continue_revision (env : Env) (cache : SessionCache) (session_id : String)
    (user_query : Option String) : SessionCache × Except Err RevResponse :=
  match get_or_restore_session env cache session_id with
  | (cache1, none) =>
    (cache1, Except.ok
      { response := "Session not found. Please start a new revision session.",
        is_session_complete := false })
  | (cache1, some s0) =>
    let s1 := { s0 with conversation_count := s0.conversation_count + 1 }
    if should_end_session user_query then
      match complete_session env s1 with
      | (s2, res) => (cacheInsert cache1 session_id s2, res)
    else
      match process_revision_flow env s1 user_query with
      | (s2, r) =>
        let merged :=
          { r with
            topic := some s2.topic,
            session_id := some session_id,
            conversation_count := some s2.conversation_count,
            max_conversations :=
              some (pyOrNat s2.max_conversations (Config.get_max_conversations s2.topic)),
            completion_threshold :=
              some (pyOrNat s2.completion_threshold (Config.get_completion_threshold s2.topic)) }
        (cacheInsert cache1 session_id s2, Except.ok merged)

/-- A sequence of continuation calls against the same session id, one
per element of `user_queries`, tracking only the session cache. -/
def run_continuations (env : Env) (cache : SessionCache) (session_id : String)
    (user_queries : List (Option String)) : SessionCache :=
  user_queries.foldl (fun c q => (continue_revision env c session_id q).1) cache

/-- `_generate_kickoff_response`'s content text:
`"\n".join(chunk["text"][:200] + "..." for chunk in topic_content)`. -/
def kickoff_content_text (topic_content : List Chunk) : String :=
  strJoin "\n" (topic_content.map (fun c => strTake c.text 200 ++ "..."))

/-- `start_revision_session`: resolves the topic config, installs a
fresh incomplete session under the given id (overwriting any cached
session with that id), seeds content and cursor, generates the kickoff
text and returns the formatted response. -/
def start_revision_session (env : Env) (cache : SessionCache)
    (topic student_id session_id : String) : SessionCache × Except Err RevResponse :=
  let cfg := Config.get_topic_config topic
  let s : SessionState :=
    { session_id := session_id,
      topic := topic,
      student_id := student_id,
      conversation_count := 0,
      is_complete := false,
      key_concepts_covered := [],
      user_understanding_level := "beginner",
      max_conversations := some cfg.max_conversations,
      completion_threshold := some cfg.completion_threshold,
      concept_chunks := none,
      current_chunk_index := none,
      revision_mode := none,
      quiz_in_progress := false,
      quiz_concepts := [],
      expecting_answer := false,
      current_question_concept := none }
  let topic_content := env.get_topic_content topic 3
  let concept_chunks := env.get_topic_content_chunks topic
  let s := { s with concept_chunks := some concept_chunks, current_chunk_index := some 0 }
  let cache := cacheInsert cache session_id s
  match env.generate (Prompt.topicKickoff topic (kickoff_content_text topic_content)) with
  | Except.error e => (cache, Except.error e)
  | Except.ok response =>
    (cache, Except.ok
      { response := response,
        topic := some topic,
        session_id := some session_id,
        conversation_count := some 0,
        is_session_complete := false,
        session_summary := none,
        sources := topic_content.map (fun c => c.chunk_id.getD "Unknown"),
        current_stage := some "kickoff",
        max_conversations := some cfg.max_conversations,
        completion_threshold := some cfg.completion_threshold })

/-! ### Concrete example values used to instantiate the theorems -/

/-- A collaborator environment in which every external call succeeds. -/
def okEnv : Env :=
  { generate := fun _ => Except.ok "generated text",
    textSearch := fun _ _ _ => Except.ok [],
    regexSearch := fun _ _ _ => Except.ok [],
    get_topic_content := fun _ _ => [],
    get_topic_content_chunks := fun _ => [],
    get_revision_session := fun _ => none }

/-- A collaborator environment whose LLM and ranked search raise. -/
def failEnv : Env :=
  { okEnv with
    generate := fun _ => Except.error "llm unavailable",
    textSearch := fun _ _ _ => Except.error "store down" }

/-- A collaborator environment with a working LLM but a raising
content-store search. -/
def searchFailEnv : Env :=
  { okEnv with textSearch := fun _ _ _ => Except.error "store down" }

/-- A plain in-progress session used as the base of concrete tests. -/
def baseSession : SessionState :=
  { session_id := "s1",
    topic := "photosynthesis",
    student_id := "stu1",
    conversation_count := 0,
    is_complete := false,
    key_concepts_covered := [],
    user_understanding_level := "beginner",
    max_conversations := some 30,
    completion_threshold := some 20,
    concept_chunks := some [],
    current_chunk_index := some 0,
    revision_mode := none,
    quiz_in_progress := false,
    quiz_concepts := [],
    expecting_answer := false,
    current_question_concept := none }

/-- Two content chunks for cursor tests. -/
def chunkA : Chunk := { text := "one two three four", chunk_id := some "a" }

def chunkB : Chunk := { text := "five six seven eight", chunk_id := some "b" }

/-- A chunk whose extracted concept name is `"alpha beta gamma"`. -/
def dupChunk : Chunk := { text := "alpha beta gamma delta", chunk_id := some "c1" }

/-- A turn-1 session that already covers the first chunk's concept. -/
def dupSession : SessionState :=
  { baseSession with
    conversation_count := 1,
    concept_chunks := some [dupChunk],
    key_concepts_covered := ["alpha beta gamma"] }

/-- A completed session cached under id `"s1"`. -/
def completedSession : SessionState := { baseSession with is_complete := true }

/-- A session two turns in; its next continuation lands on turn 3,
whose classified stage is `engaging_question` (an LLM-calling stage
used to exercise handler faults). -/
def session2 : SessionState := { baseSession with conversation_count := 2 }

/-! ### Shared auxiliary lemmas -/

theorem complete_session_fst (env : Env) (s : SessionState) :
    (complete_session env s).1 = { s with is_complete := true } := by
  unfold complete_session
  dsimp only
  split <;> rfl

theorem complete_session_ok_flag (env : Env) (s : SessionState) (r : RevResponse)
    (h : (complete_session env s).2 = Except.ok r) : r.is_session_complete = true := by
  unfold complete_session at h
  dsimp only at h
  split at h
  · exact absurd h (by simp)
  · simp at h
    subst h
    rfl

theorem handle_progress_check_fst (env : Env) (s : SessionState) (q : Option String) :
    (handle_progress_check env s q).1 = s ∨
    (handle_progress_check env s q).1 = { s with is_complete := true } := by
  unfold handle_progress_check
  dsimp only
  split
  · exact Or.inl rfl
  · split
    · exact Or.inl rfl
    · split
      · rw [complete_session_fst]
        exact Or.inr rfl
      · exact Or.inl rfl

theorem handle_progress_check_count (env : Env) (s : SessionState) (q : Option String) :
    (handle_progress_check env s q).1.conversation_count = s.conversation_count := by
  rcases handle_progress_check_fst env s q with h | h <;> rw [h]

theorem handle_progress_check_flag (env : Env) (s : SessionState) (q : Option String)
    (hc : s.is_complete = true) : (handle_progress_check env s q).1.is_complete = true := by
  rcases handle_progress_check_fst env s q with h | h <;> rw [h]
  exact hc

theorem handle_progress_check_concepts (env : Env) (s : SessionState) (q : Option String) :
    (handle_progress_check env s q).1.key_concepts_covered = s.key_concepts_covered := by
  rcases handle_progress_check_fst env s q with h | h <;> rw [h]

theorem handle_progressive_recap_count (env : Env) (s : SessionState) (q : Option String) :
    (handle_progressive_recap env s q).1.conversation_count = s.conversation_count := by
  unfold handle_progressive_recap
  dsimp only
  split
  · split
    · split
      · rfl
      · split <;> rfl
    · rw [handle_progress_check_count]
  · rw [handle_progress_check_count]

theorem handle_progressive_recap_flag (env : Env) (s : SessionState) (q : Option String)
    (hc : s.is_complete = true) : (handle_progressive_recap env s q).1.is_complete = true := by
  unfold handle_progressive_recap
  dsimp only
  split
  · split
    · split
      · exact hc
      · split <;> exact hc
    · exact handle_progress_check_flag _ _ _ hc
  · exact handle_progress_check_flag _ _ _ hc

theorem kickoff_deliver_count (env : Env) (s : SessionState) (chunks : List Chunk) :
    (kickoff_deliver env s chunks).1.conversation_count = s.conversation_count := by
  unfold kickoff_deliver
  dsimp only
  split
  · split <;> rfl
  · rfl

theorem kickoff_deliver_flag (env : Env) (s : SessionState) (chunks : List Chunk)
    (hc : s.is_complete = true) : (kickoff_deliver env s chunks).1.is_complete = true := by
  unfold kickoff_deliver
  dsimp only
  split
  · split <;> exact hc
  · exact hc

theorem handle_kickoff_response_count (env : Env) (s : SessionState) (q : Option String) :
    (handle_kickoff_response env s q).1.conversation_count = s.conversation_count := by
  unfold handle_kickoff_response
  dsimp only
  split
  · rfl
  · split <;> rw [kickoff_deliver_count]

theorem handle_kickoff_response_flag (env : Env) (s : SessionState) (q : Option String)
    (hc : s.is_complete = true) : (handle_kickoff_response env s q).1.is_complete = true := by
  unfold handle_kickoff_response
  dsimp only
  split
  · exact hc
  · split <;> exact kickoff_deliver_flag _ _ _ hc

theorem handle_engaging_question_count (env : Env) (s : SessionState) (q : Option String) :
    (handle_engaging_question env s q).1.conversation_count = s.conversation_count := by
  unfold handle_engaging_question
  dsimp only
  split <;> rfl

theorem handle_engaging_question_flag (env : Env) (s : SessionState) (q : Option String)
    (hc : s.is_complete = true) : (handle_engaging_question env s q).1.is_complete = true := by
  unfold handle_engaging_question
  dsimp only
  split <;> exact hc

theorem evaluate_quiz_answers_count (env : Env) (s : SessionState) (q : Option String) :
    (evaluate_quiz_answers env s q).1.conversation_count = s.conversation_count := by
  unfold evaluate_quiz_answers
  dsimp only
  split <;> rfl

theorem evaluate_quiz_answers_flag (env : Env) (s : SessionState) (q : Option String)
    (hc : s.is_complete = true) : (evaluate_quiz_answers env s q).1.is_complete = true := by
  unfold evaluate_quiz_answers
  dsimp only
  split <;> exact hc

theorem handle_mini_quiz_count (env : Env) (s : SessionState) (q : Option String) :
    (handle_mini_quiz env s q).1.conversation_count = s.conversation_count := by
  unfold handle_mini_quiz
  dsimp only
  split
  · rw [evaluate_quiz_answers_count]
  · split <;> rfl

theorem handle_mini_quiz_flag (env : Env) (s : SessionState) (q : Option String)
    (hc : s.is_complete = true) : (handle_mini_quiz env s q).1.is_complete = true := by
  unfold handle_mini_quiz
  dsimp only
  split
  · exact evaluate_quiz_answers_flag _ _ _ hc
  · split <;> exact hc

theorem handle_user_question_fst (env : Env) (s : SessionState) (q : Option String) :
    (handle_user_question env s q).1 = s := by
  unfold handle_user_question
  dsimp only
  split <;> rfl

theorem stage_handler_count (stage : String) (env : Env) (s : SessionState) (q : Option String) :
    (stage_handler stage env s q).1.conversation_count = s.conversation_count := by
  unfold stage_handler handle_general_interaction
  repeat' split
  · exact handle_kickoff_response_count env s q
  · exact handle_progressive_recap_count env s q
  · exact handle_engaging_question_count env s q
  · exact handle_mini_quiz_count env s q
  · rw [handle_user_question_fst]
  · exact handle_progress_check_count env s q
  · exact evaluate_quiz_answers_count env s q
  · exact handle_progressive_recap_count env s q

theorem stage_handler_flag (stage : String) (env : Env) (s : SessionState) (q : Option String)
    (hc : s.is_complete = true) : (stage_handler stage env s q).1.is_complete = true := by
  unfold stage_handler handle_general_interaction
  repeat' split
  · exact handle_kickoff_response_flag env s q hc
  · exact handle_progressive_recap_flag env s q hc
  · exact handle_engaging_question_flag env s q hc
  · exact handle_mini_quiz_flag env s q hc
  · rw [handle_user_question_fst]
    exact hc
  · exact handle_progress_check_flag env s q hc
  · exact evaluate_quiz_answers_flag env s q hc
  · exact handle_progressive_recap_flag env s q hc

theorem process_revision_flow_count (env : Env) (s : SessionState) (q : Option String) :
    (process_revision_flow env s q).1.conversation_count = s.conversation_count := by
  unfold process_revision_flow
  dsimp only
  split
  next s1 r heq =>
    have := stage_handler_count (determine_stage_from_config s q) env s q
    rw [heq] at this
    exact this
  next s1 e heq =>
    have := stage_handler_count (determine_stage_from_config s q) env s q
    rw [heq] at this
    exact this

theorem process_revision_flow_flag (env : Env) (s : SessionState) (q : Option String)
    (hc : s.is_complete = true) : (process_revision_flow env s q).1.is_complete = true := by
  unfold process_revision_flow
  dsimp only
  split
  next s1 r heq =>
    have := stage_handler_flag (determine_stage_from_config s q) env s q hc
    rw [heq] at this
    exact this
  next s1 e heq =>
    have := stage_handler_flag (determine_stage_from_config s q) env s q hc
    rw [heq] at this
    exact this

theorem cacheLookup_cacheInsert (cache : SessionCache) (session_id : String) (s : SessionState) :
    cacheLookup (cacheInsert cache session_id s) session_id = some s := by
  unfold cacheLookup cacheInsert
  rw [List.find?_cons_of_pos]
  · rfl
  · simp

theorem get_or_restore_session_hit (env : Env) (cache : SessionCache) (session_id : String)
    (s : SessionState) (h : cacheLookup cache session_id = some s) :
    get_or_restore_session env cache session_id = (cache, some s) := by
  unfold get_or_restore_session
  rw [h]

theorem continue_revision_step (env : Env) (cache : SessionCache) (session_id : String)
    (q : Option String) (s : SessionState)
    (h : (get_or_restore_session env cache session_id).2 = some s) :
    (cacheLookup (continue_revision env cache session_id q).1 session_id).map
        SessionState.conversation_count = some (s.conversation_count + 1) ∧
    (s.is_complete = true →
      (cacheLookup (continue_revision env cache session_id q).1 session_id).map
        SessionState.is_complete = some true) := by
  have hg : get_or_restore_session env cache session_id
      = ((get_or_restore_session env cache session_id).1, some s) := by
    conv_lhs => rw [← Prod.mk.eta (p := get_or_restore_session env cache session_id)]
    rw [h]
  unfold continue_revision
  rw [hg]
  dsimp only
  split
  · rcases hc : complete_session env { s with conversation_count := s.conversation_count + 1 }
      with ⟨s2, res⟩
    have hfst := complete_session_fst env { s with conversation_count := s.conversation_count + 1 }
    rw [hc] at hfst
    dsimp only at hfst
    rw [cacheLookup_cacheInsert, hfst]
    exact ⟨rfl, fun _ => rfl⟩
  · rcases hp : process_revision_flow env { s with conversation_count := s.conversation_count + 1 } q
      with ⟨s2, r⟩
    have hcount := process_revision_flow_count env
      { s with conversation_count := s.conversation_count + 1 } q
    have hflag := process_revision_flow_flag env
      { s with conversation_count := s.conversation_count + 1 } q
    rw [hp] at hcount hflag
    dsimp only at hcount hflag
    rw [cacheLookup_cacheInsert]
    constructor
    · simp [hcount]
    · intro hcomp
      simp [hflag hcomp]

theorem run_continuations_cons (env : Env) (cache : SessionCache) (session_id : String)
    (q : Option String) (rest : List (Option String)) :
    run_continuations env cache session_id (q :: rest) =
      run_continuations env (continue_revision env cache session_id q).1 session_id rest := rfl

/-! ### Claim theorems -/

/-- C1: for every session with no quiz in progress and
`conversation_count = 15`, a non-question utterance resolves to
`mini_quiz`, because the ordered rule list is evaluated top to bottom
and the `mini_quiz` rule (`15 % 5 == 0 and 15 > 5`) precedes the
`engaging_question` rule (`15 % 3 == 0 and 15 > 2`). -/
theorem stage_rule_priority_mini_quiz (s : SessionState) (q : Option String)
    (_hquiz : s.quiz_in_progress = false)
    (hcount : s.conversation_count = 15)
    (hq : has_question_indicators q = false) :
    determine_stage_from_config s q = "mini_quiz" := by
  unfold determine_stage_from_config stage_patterns
  simp [List.find?, evaluate_stage_condition, hcount, hq]

theorem stage_rule_priority_mini_quiz_witness :
    { baseSession with conversation_count := 15 }.quiz_in_progress = false ∧
    has_question_indicators (some "tell about leaves") = false ∧
    determine_stage_from_config { baseSession with conversation_count := 15 }
      (some "tell about leaves") = "mini_quiz" :=
  ⟨rfl, by decide, stage_rule_priority_mini_quiz _ _ rfl rfl (by decide)⟩

/-- C2 counterexample: at `conversation_count = 1` the kickoff rule
precedes the question-indicator rule, so an utterance containing
`"how"` resolves to `kickoff_response`, not `user_question`, refuting
"for every conversation_count value". -/
theorem question_interrupt_counterexample :
    strContains (strToLower "how does this work") "how" = true ∧
    determine_stage_from_config { baseSession with conversation_count := 1 }
      (some "how does this work") = "kickoff_response" ∧
    determine_stage_from_config { baseSession with conversation_count := 1 }
      (some "how does this work") ≠ "user_question" := by
  refine ⟨by decide, by decide, by decide⟩

/-- C2 amended: for every continuation turn whose `conversation_count`
is not 1, an utterance containing `"how"` (case-insensitive) is
classified `user_question`, overriding the numeric scheduling rules. -/
theorem question_interrupt_overrides_numeric (s : SessionState) (u : String)
    (hne : s.conversation_count ≠ 1)
    (hhow : strContains (strToLower u) "how" = true) :
    determine_stage_from_config s (some u) = "user_question" := by
  have hu : u ≠ "" := by
    rintro rfl
    exact absurd hhow (by decide)
  have hqi : has_question_indicators (some u) = true := by
    unfold has_question_indicators
    dsimp only
    rw [if_neg hu]
    exact List.any_eq_true.mpr ⟨"how", by simp [question_indicators], hhow⟩
  have hbeq : (s.conversation_count == 1) = false := by simp [hne]
  unfold determine_stage_from_config stage_patterns
  simp [List.find?, evaluate_stage_condition, hqi, hbeq]

theorem question_interrupt_overrides_numeric_witness :
    { baseSession with conversation_count := 10 }.conversation_count ≠ 1 ∧
    strContains (strToLower "HOW so") "how" = true ∧
    determine_stage_from_config { baseSession with conversation_count := 10 }
      (some "HOW so") = "user_question" :=
  ⟨by decide, by decide,
   question_interrupt_overrides_numeric _ _ (by decide) (by decide)⟩

/-- C3: for every session whose cursor, once advanced, has run past the
last chunk, `_handle_progressive_recap` delegates to the progress-check
handler (no out-of-range read exists: the emitting branch is guarded by
the bound); while a chunk is emitted the index used is strictly below
the chunk count and the emitted source is that in-range chunk. -/
theorem progressive_recap_cursor_safety (env : Env) (s : SessionState) (q : Option String)
    (chunks : List Chunk) (i : Nat)
    (hchunks : s.concept_chunks = some chunks)
    (hidx : s.current_chunk_index = some i) :
    (chunks.length ≤ i + 1 →
      handle_progressive_recap env s q =
        handle_progress_check env { s with current_chunk_index := some (i + 1) } none) ∧
    (i + 1 < chunks.length →
      ∀ r, (handle_progressive_recap env s q).2 = Except.ok r →
        ∃ c, chunks[i + 1]? = some c ∧
          r.current_stage = some "progressive_recap" ∧
          r.sources = [c.chunk_id.getD "Unknown"]) := by
  unfold handle_progressive_recap
  rw [hidx]
  dsimp only [Option.getD]
  rw [hchunks]
  dsimp only
  constructor
  · intro hle
    rw [dif_neg (by omega)]
  · intro hlt r hr
    rw [dif_pos hlt] at hr
    refine ⟨chunks.get ⟨i + 1, hlt⟩, List.getElem?_eq_getElem hlt, ?_⟩
    split at hr
    · exact absurd hr (by simp)
    · simp at hr
      subst hr
      exact ⟨rfl, rfl⟩

theorem progressive_recap_cursor_safety_witness :
    ([chunkA].length ≤ 0 + 1) ∧
    handle_progressive_recap okEnv
        { baseSession with concept_chunks := some [chunkA], current_chunk_index := some 0 }
        (some "ok") =
      handle_progress_check okEnv
        { { baseSession with concept_chunks := some [chunkA], current_chunk_index := some 0 }
            with current_chunk_index := some (0 + 1) } none :=
  ⟨by decide,
   (progressive_recap_cursor_safety okEnv _ (some "ok") [chunkA] 0 rfl rfl).1 (by decide)⟩

/-- C4: for every resolvable session and any counter value, a
continuation whose utterance contains a session-end phrase returns
exactly the completion path's cache and response — classification and
stage handlers never run on that turn — and every successful completion
response has `is_session_complete = true`. -/
theorem manual_end_short_circuit (env : Env) (cache : SessionCache) (session_id : String)
    (u : String) (s : SessionState)
    (hres : (get_or_restore_session env cache session_id).2 = some s)
    (hend : session_end_phrases.any (fun p => strContains (strToLower u) p) = true) :
    continue_revision env cache session_id (some u) =
      (cacheInsert (get_or_restore_session env cache session_id).1 session_id
        (complete_session env { s with conversation_count := s.conversation_count + 1 }).1,
       (complete_session env { s with conversation_count := s.conversation_count + 1 }).2) ∧
    (∀ r, (complete_session env
        { s with conversation_count := s.conversation_count + 1 }).2 = Except.ok r →
      r.is_session_complete = true) := by
  have hu : u ≠ "" := by
    rintro rfl
    exact absurd hend (by decide)
  have hse : should_end_session (some u) = true := by
    unfold should_end_session
    dsimp only
    rw [if_neg hu]
    exact hend
  have hg : get_or_restore_session env cache session_id
      = ((get_or_restore_session env cache session_id).1, some s) := by
    conv_lhs => rw [← Prod.mk.eta (p := get_or_restore_session env cache session_id)]
    rw [hres]
  refine ⟨?_, fun r hr => complete_session_ok_flag env _ r hr⟩
  unfold continue_revision
  rw [hg]
  dsimp only
  rw [if_pos (by rw [hse])]

theorem manual_end_short_circuit_witness :
    session_end_phrases.any (fun p => strContains (strToLower "end session please") p) = true ∧
    continue_revision okEnv [("s1", baseSession)] "s1" (some "end session please") =
      (cacheInsert (get_or_restore_session okEnv [("s1", baseSession)] "s1").1 "s1"
        (complete_session okEnv
          { baseSession with conversation_count := baseSession.conversation_count + 1 }).1,
       (complete_session okEnv
          { baseSession with conversation_count := baseSession.conversation_count + 1 }).2) :=
  ⟨by decide,
   (manual_end_short_circuit okEnv [("s1", baseSession)] "s1" "end session please"
      baseSession rfl (by decide)).1⟩

/-- C5: for every resolvable session, each `continue_revision` call
sets the cached counter to exactly its previous value plus one (for any
utterance and any collaborator behaviour, so also on manual-end turns
and turns whose handler faults, since the increment precedes dispatch);
consequently after N continuations from a fresh session (counter 0) the
cached counter equals N. -/
theorem monotonic_conversation_count :
    (∀ (env : Env) (cache : SessionCache) (session_id : String) (q : Option String)
        (s : SessionState), (get_or_restore_session env cache session_id).2 = some s →
      (cacheLookup (continue_revision env cache session_id q).1 session_id).map
          SessionState.conversation_count = some (s.conversation_count + 1)) ∧
    (∀ (env : Env) (cache : SessionCache) (session_id : String)
        (qs : List (Option String)) (s0 : SessionState),
      cacheLookup cache session_id = some s0 → s0.conversation_count = 0 →
      (cacheLookup (run_continuations env cache session_id qs) session_id).map
          SessionState.conversation_count = some qs.length) := by
  constructor
  · intro env cache session_id q s h
    exact (continue_revision_step env cache session_id q s h).1
  · intro env cache session_id qs s0 h h0
    have gen : ∀ (qs : List (Option String)) (cache : SessionCache) (s0 : SessionState),
        cacheLookup cache session_id = some s0 →
        (cacheLookup (run_continuations env cache session_id qs) session_id).map
          SessionState.conversation_count = some (s0.conversation_count + qs.length) := by
      intro qs
      induction qs with
      | nil =>
        intro cache s0 h
        simp [run_continuations, h]
      | cons q rest ih =>
        intro cache s0 h
        have hres : (get_or_restore_session env cache session_id).2 = some s0 := by
          rw [get_or_restore_session_hit env cache session_id s0 h]
        have step := (continue_revision_step env cache session_id q s0 hres).1
        obtain ⟨s1, hs1, hc1⟩ : ∃ s1,
            cacheLookup (continue_revision env cache session_id q).1 session_id = some s1 ∧
            s1.conversation_count = s0.conversation_count + 1 := by
          rcases hl : cacheLookup (continue_revision env cache session_id q).1 session_id
            with _ | s1
          · rw [hl] at step
            exact absurd step (by simp)
          · rw [hl] at step
            simp only [Option.map_some'] at step
            exact ⟨s1, rfl, by injection step⟩
        rw [run_continuations_cons, ih _ s1 hs1, hc1]
        simp [Nat.add_assoc, Nat.add_comm 1 rest.length]
    rw [gen qs cache s0 h, h0, Nat.zero_add]

theorem monotonic_conversation_count_witness :
    cacheLookup [("s1", baseSession)] "s1" = some baseSession ∧
    baseSession.conversation_count = 0 ∧
    (cacheLookup
        (run_continuations okEnv [("s1", baseSession)] "s1"
          [some "first reply", none, some "third reply"]) "s1").map
      SessionState.conversation_count = some 3 ∧
    (cacheLookup
        (continue_revision okEnv [("s1", baseSession)] "s1" (some "first reply")).1 "s1").map
      SessionState.conversation_count = some (baseSession.conversation_count + 1) :=
  ⟨rfl, rfl,
   monotonic_conversation_count.2 okEnv [("s1", baseSession)] "s1"
     [some "first reply", none, some "third reply"] baseSession rfl rfl,
   monotonic_conversation_count.1 okEnv [("s1", baseSession)] "s1" (some "first reply")
     baseSession rfl⟩

/-- C6 counterexample: `start_revision_session` called with the id of
a cached completed session unconditionally installs a fresh session
with `is_complete = false` under that id, flipping the flag stored for
that session id from true back to false. -/
theorem completion_flag_reset_by_start :
    completedSession.is_complete = true ∧
    cacheLookup [("s1", completedSession)] "s1" = some completedSession ∧
    (cacheLookup
        (start_revision_session okEnv [("s1", completedSession)]
          "photosynthesis" "stu1" "s1").1 "s1").map
      SessionState.is_complete = some false :=
  ⟨rfl, rfl, rfl⟩

/-- C6 amended: once `is_complete` is true, continuation, every stage
handler and completion preserve it (restore only runs on a cache miss,
so it never overwrites an in-memory flag); `start_revision_session` is
the exception — it overwrites the session stored under the given id
with a fresh incomplete one, as the counterexample shows. -/
theorem completion_flag_monotonic_amended :
    (∀ (env : Env) (cache : SessionCache) (session_id : String) (q : Option String)
        (s : SessionState), cacheLookup cache session_id = some s → s.is_complete = true →
      (cacheLookup (continue_revision env cache session_id q).1 session_id).map
          SessionState.is_complete = some true) ∧
    (∀ (stage : String) (env : Env) (s : SessionState) (q : Option String),
      s.is_complete = true → (stage_handler stage env s q).1.is_complete = true) ∧
    (∀ (env : Env) (s : SessionState), (complete_session env s).1.is_complete = true) := by
  refine ⟨?_, stage_handler_flag, ?_⟩
  · intro env cache session_id q s h hc
    have hres : (get_or_restore_session env cache session_id).2 = some s := by
      rw [get_or_restore_session_hit env cache session_id s h]
    exact (continue_revision_step env cache session_id q s hres).2 hc
  · intro env s
    rw [complete_session_fst]

theorem completion_flag_monotonic_amended_witness :
    cacheLookup [("s1", completedSession)] "s1" = some completedSession ∧
    completedSession.is_complete = true ∧
    (cacheLookup
        (continue_revision okEnv [("s1", completedSession)] "s1" (some "keep going")).1
        "s1").map SessionState.is_complete = some true ∧
    (stage_handler "mini_quiz" okEnv completedSession (some "keep going")).1.is_complete
      = true :=
  ⟨rfl, rfl,
   completion_flag_monotonic_amended.1 okEnv [("s1", completedSession)] "s1"
     (some "keep going") completedSession rfl rfl,
   completion_flag_monotonic_amended.2.1 "mini_quiz" okEnv completedSession
     (some "keep going") rfl⟩

/-- C7: for every resolvable session and non-end utterance, if the
dispatched stage handler raises, `continue_revision` still returns a
successful generic response with stage forced to `general`,
`is_session_complete = false` and empty sources, and the cached counter
is still incremented by one (the increment precedes dispatch). -/
theorem handler_fault_contained (env : Env) (cache : SessionCache) (session_id : String)
    (q : Option String) (s s' : SessionState) (e : Err)
    (hres : (get_or_restore_session env cache session_id).2 = some s)
    (hnoend : should_end_session q = false)
    (hfail : stage_handler
        (determine_stage_from_config
          { s with conversation_count := s.conversation_count + 1 } q)
        env { s with conversation_count := s.conversation_count + 1 } q
      = (s', Except.error e)) :
    (continue_revision env cache session_id q).2 = Except.ok
      { response := "I encountered an issue. Let me help you continue with your revision.",
        is_session_complete := false,
        topic := some s'.topic,
        session_id := some session_id,
        conversation_count := some s'.conversation_count,
        sources := [],
        current_stage := some "general",
        max_conversations :=
          some (pyOrNat s'.max_conversations (Config.get_max_conversations s'.topic)),
        completion_threshold :=
          some (pyOrNat s'.completion_threshold (Config.get_completion_threshold s'.topic)) } ∧
    (cacheLookup (continue_revision env cache session_id q).1 session_id).map
        SessionState.conversation_count = some (s.conversation_count + 1) := by
  refine ⟨?_, (continue_revision_step env cache session_id q s hres).1⟩
  have hg : get_or_restore_session env cache session_id
      = ((get_or_restore_session env cache session_id).1, some s) := by
    conv_lhs => rw [← Prod.mk.eta (p := get_or_restore_session env cache session_id)]
    rw [hres]
  have hflow : process_revision_flow env
      { s with conversation_count := s.conversation_count + 1 } q
      = (s',
        { response := "I encountered an issue. Let me help you continue with your revision.",
          current_stage := some "general",
          is_session_complete := false,
          sources := [] }) := by
    unfold process_revision_flow
    dsimp only
    rw [hfail]
  unfold continue_revision
  rw [hg]
  dsimp only
  rw [if_neg (by simp [hnoend]), hflow]

theorem handler_fault_contained_witness :
    should_end_session (some "ok then") = false ∧
    stage_handler
        (determine_stage_from_config
          { session2 with conversation_count := session2.conversation_count + 1 }
          (some "ok then"))
        failEnv { session2 with conversation_count := session2.conversation_count + 1 }
        (some "ok then")
      = ({ session2 with conversation_count := session2.conversation_count + 1 },
         Except.error "llm unavailable") ∧
    (continue_revision failEnv [("s1", session2)] "s1" (some "ok then")).2 = Except.ok
      { response := "I encountered an issue. Let me help you continue with your revision.",
        is_session_complete := false,
        topic := some "photosynthesis",
        session_id := some "s1",
        conversation_count := some 3,
        sources := [],
        current_stage := some "general",
        max_conversations := some 30,
        completion_threshold := some 20 } := by
  refine ⟨by decide, rfl, ?_⟩
  have h := (handler_fault_contained failEnv [("s1", session2)] "s1" (some "ok then")
    session2 { session2 with conversation_count := session2.conversation_count + 1 }
    "llm unavailable" rfl (by decide) rfl).1
  exact h

/-- C8: if the underlying content store raises on search, the facade
`search_topic_content` returns `[]` instead of propagating, and the
user-question handler still returns a normal (non-error) response
whose sources list is empty. -/
theorem search_fail_open (env : Env) (s : SessionState) (q : Option String)
    (e : Err) (resp : String)
    (hsearch : env.textSearch s.topic q 3 = Except.error e)
    (hgen : env.generate (Prompt.questionHandling q s.topic "") = Except.ok resp) :
    search_topic_content env s.topic q 3 = [] ∧
    handle_user_question env s q =
      (s, Except.ok
        { response := resp,
          current_stage := some "user_question",
          is_session_complete := false,
          sources := [] }) := by
  have hempty : search_topic_content env s.topic q 3 = [] := by
    unfold search_topic_content
    rw [hsearch]
  refine ⟨hempty, ?_⟩
  unfold handle_user_question
  rw [hempty]
  dsimp only [List.isEmpty_nil, List.map_nil]
  rw [if_pos rfl, hgen]

theorem search_fail_open_witness :
    searchFailEnv.textSearch "photosynthesis" (some "how do leaves work") 3
      = Except.error "store down" ∧
    search_topic_content searchFailEnv "photosynthesis" (some "how do leaves work") 3 = [] ∧
    handle_user_question searchFailEnv baseSession (some "how do leaves work") =
      (baseSession, Except.ok
        { response := "generated text",
          current_stage := some "user_question",
          is_session_complete := false,
          sources := [] }) := by
  have h := search_fail_open searchFailEnv baseSession (some "how do leaves work")
    "store down" "generated text" rfl rfl
  exact ⟨rfl, h.1, h.2⟩

/-- C9 counterexample: the kickoff handler's concept insertion does not
deduplicate; on a session already covering the first chunk's concept it
appends a second copy, so not every insertion deduplicates against the
existing entries. -/
theorem concept_dedup_counterexample :
    dupSession.key_concepts_covered = ["alpha beta gamma"] ∧
    extract_concept_name dupChunk.text = "alpha beta gamma" ∧
    (handle_kickoff_response okEnv dupSession (some "lets go")).1.key_concepts_covered
      = ["alpha beta gamma", "alpha beta gamma"] := by
  refine ⟨rfl, by decide, by decide⟩

/-- C9 amended: the progressive_recap handler — the only repeat-
insertion path — deduplicates: its covered-concepts list is either
unchanged or extended by a single concept not already present; the
kickoff handler's single turn-1 insertion appends unconditionally, as
the counterexample shows. -/
theorem recap_insert_no_duplicate (env : Env) (s : SessionState) (q : Option String) :
    (handle_progressive_recap env s q).1.key_concepts_covered = s.key_concepts_covered ∨
    ∃ c, c ∉ s.key_concepts_covered ∧
      (handle_progressive_recap env s q).1.key_concepts_covered
        = s.key_concepts_covered ++ [c] := by
  unfold handle_progressive_recap
  dsimp only
  split
  · split
    · split
      · exact Or.inl rfl
      · split
        next hmem => exact Or.inl rfl
        next hmem => exact Or.inr ⟨_, hmem, rfl⟩
    · rw [handle_progress_check_concepts]
      exact Or.inl rfl
  · rw [handle_progress_check_concepts]
    exact Or.inl rfl

/-- C10: for a session whose `concept_chunks` and
`key_concepts_covered` are both empty and whose completion threshold is
positive, every progress-check invocation (with a working generator)
immediately completes the session: the `0 >= 0` trigger holds
vacuously, whatever the turn count, so a contentless session never
emits a mere progress narrative. -/
theorem contentless_progress_check_completes (env : Env) (s : SessionState)
    (q : Option String) (t : Nat)
    (hchunks : s.concept_chunks = some [])
    (hconcepts : s.key_concepts_covered = [])
    (hthr : s.completion_threshold = some t)
    (htpos : 0 < t)
    (hgen : ∀ p, ∃ r, env.generate p = Except.ok r) :
    handle_progress_check env s q = complete_session env s ∧
    (complete_session env s).1.is_complete = true ∧
    (∀ r, (complete_session env s).2 = Except.ok r → r.is_session_complete = true) := by
  refine ⟨?_, by rw [complete_session_fst], fun r hr => complete_session_ok_flag env s r hr⟩
  unfold handle_progress_check
  rw [hchunks, hconcepts, hthr]
  dsimp only [List.length_nil]
  rw [if_neg (by omega), if_neg (by omega)]
  dsimp only
  obtain ⟨r1, hr1⟩ := hgen (Prompt.progressTracking s.topic 0 0
    ((s.conversation_count : ℚ) / (t : ℚ) * 100))
  rw [hr1]
  dsimp only
  rw [if_pos (Or.inr (Or.inl (Nat.le_refl 0)))]

theorem contentless_progress_check_completes_witness :
    session2.concept_chunks = some [] ∧
    session2.key_concepts_covered = [] ∧
    session2.completion_threshold = some 20 ∧
    handle_progress_check okEnv session2 none = complete_session okEnv session2 ∧
    (complete_session okEnv session2).1.is_complete = true := by
  have h := contentless_progress_check_completes okEnv session2 none 20 rfl rfl rfl
    (by decide) (fun p => ⟨"generated text", rfl⟩)
  exact ⟨rfl, rfl, rfl, h.1, h.2.1⟩
